import Mathlib

/-!
Verification development for a prediction-market bookkeeping service
(FastAPI + SQLAlchemy, `src/main.py`, `src/models/event.py`, `src/models/bet.py`).

The relational store is modelled as an explicit state: a list of event rows,
a list of bet rows and the next auto-increment bet id.  Each HTTP handler of
`src/main.py` becomes a Lean function from its inputs and a `Store` to a
response together with the store after the request.  SQL `Float` token
amounts are modelled as rationals; the `prediction_type` column enum
`Enum("YES", "NO")` becomes the two-constructor type `Prediction`.
-/

/-- The `prediction_type` database enum: `Enum("YES", "NO")` on the
`bets.prediction` column, mirrored by `Literal["YES", "NO"]` in the request
contract. -/
inductive Prediction where
  | YES : Prediction
  | NO : Prediction
deriving DecidableEq, Repr

/-- `PredictInfo` request sub-object (`src/models/event.py`): `price` and
`symbol` strings. -/
structure PredictInfo where
  price : String
  symbol : String
deriving DecidableEq, Repr

/-- A row of the `events` table (`class Event` in `src/main.py`):
`request_id` is the primary key; `predict` and `contracts` are nullable JSON
columns, `contracts` stored as a string-to-string mapping. -/
structure EventRow where
  request_id : String
  title : String
  description : String
  due_date : Int
  predict : Option PredictInfo
  contracts : Option (List (String × String))
deriving DecidableEq, Repr

/-- A row of the `bets` table (`class Bet` in `src/main.py`): integer
auto-increment primary key `id`, foreign key `event_request_id`, wallet
address, enum prediction and a float `tokens` stake (modelled as `ℚ`). -/
structure BetRow where
  id : Nat
  event_request_id : String
  wallet_address : String
  prediction : Prediction
  tokens : ℚ
deriving DecidableEq, Repr

/-- The relational store owned by the database: events, bets, and the next
value of the `bets.id` auto-increment sequence. -/
structure Store where
  events : List EventRow
  bets : List BetRow
  nextBetId : Nat
deriving DecidableEq, Repr

/-- Outcome of a handler call: a successful JSON body, an
`HTTPException(status_code, detail)` raised by the handler, or an uncaught
Python exception surfaced by the framework as a 500 response. -/
inductive Resp (α : Type) where
  | ok : α → Resp α
  | err : Nat → String → Resp α
  | exn : String → Resp α
deriving DecidableEq, Repr

/-- `EventCreate` request contract (`src/models/event.py`). -/
structure EventCreate where
  request_id : String
  title : String
  description : String
  due_date : Int
  predict : Option PredictInfo
deriving DecidableEq, Repr

/-- `ContractsUpdate` request contract (`src/models/event.py`): a
string-to-string mapping of contract addresses. -/
structure ContractsUpdate where
  contracts : List (String × String)
deriving DecidableEq, Repr

/-- `BetCreate` request contract (`src/models/bet.py`), after validation:
`prediction` is one of the two literals and `tokens` satisfied `gt=0`. -/
structure BetCreate where
  event_request_id : String
  wallet_address : String
  prediction : Prediction
  tokens : ℚ
  token_name : String
deriving DecidableEq, Repr

/-- `db.query(Event).filter(Event.request_id == request_id).first()`. -/
def findEvent (events : List EventRow) (rid : String) : Option EventRow :=
  events.find? (fun ev => ev.request_id == rid)

/-- Handler `create_event` (`POST /events`): builds an `Event` row from the
request (with `contracts` left at its `NULL` default), inserts and commits;
a duplicate primary key raises `IntegrityError`, which is caught, rolled
back and turned into `HTTPException(400, ...)`. -/
def create_event (event : EventCreate) (s : Store) : Resp EventRow × Store :=
  let db_event : EventRow :=
    { request_id := event.request_id
      title := event.title
      description := event.description
      due_date := event.due_date
      predict := event.predict
      contracts := none }
  if s.events.any (fun ev => ev.request_id == event.request_id) then
    (.err 400 "An event with this request ID already exists", s)
  else
    (.ok db_event, { s with events := s.events ++ [db_event] })

/-- Replace the first row whose `request_id` matches, as the ORM update of
the row returned by `filter(...).first()` does. -/
def replaceFirst (events : List EventRow) (rid : String) (u : EventRow) :
    List EventRow :=
  match events with
  | [] => []
  | e :: rest =>
    if e.request_id == rid then u :: rest else e :: replaceFirst rest rid u

/-- Handler `update_event_contracts` (`PUT /events/{request_id}`): 404 when
the event is absent, otherwise assigns `db_event.contracts =
contracts.contracts` (wholesale replacement), commits and returns the
updated row. -/
def update_event_contracts (request_id : String) (contracts : ContractsUpdate)
    (s : Store) : Resp EventRow × Store :=
  match findEvent s.events request_id with
  | none => (.err 404 "Event not found", s)
  | some db_event =>
    let updated := { db_event with contracts := some contracts.contracts }
    (.ok updated, { s with events := replaceFirst s.events request_id updated })

/-- `query.offset(skip)` on a result list. -/
def queryOffset (skip : Nat) (rows : List α) : List α := rows.drop skip

/-- `query.limit(limit)` on a result list. -/
def queryLimit (limit : Nat) (rows : List α) : List α := rows.take limit

/-- Handler `get_all_events` (`GET /events`):
`db.query(Event).offset(skip).limit(limit).all()`.  The `skip` and `limit`
query integers are modelled as naturals (the database rejects negative
offsets and limits). -/
def get_all_events (skip limit : Nat) (s : Store) : List EventRow :=
  queryLimit limit (queryOffset skip s.events)

/-- Default of the `skip` query parameter of `get_all_events`. -/
def getAllEventsDefaultSkip : Nat := 0

/-- Default of the `limit` query parameter of `get_all_events`. -/
def getAllEventsDefaultLimit : Nat := 100

/-- Handler `get_event` (`GET /events/{request_id}`): 404 when absent,
otherwise the full event row. -/
def get_event (request_id : String) (s : Store) : Resp EventRow × Store :=
  match findEvent s.events request_id with
  | none => (.err 404 "Event not found", s)
  | some event => (.ok event, s)

/-- The keys of `bet.dict()` in handler `create_bet`: all five fields of the
`BetCreate` contract. -/
def betDictKeys : List String :=
  ["event_request_id", "wallet_address", "prediction", "tokens", "token_name"]

/-- The attributes accepted by the `Bet` declarative constructor: its five
mapped columns and the `event` relationship. -/
def betModelAttrs : List String :=
  ["id", "event_request_id", "wallet_address", "prediction", "tokens", "event"]

/-- Handler `create_bet` (`POST /bets`): looks the referenced event up and
raises `HTTPException(404, ...)` when absent; then evaluates
`Bet(**bet.dict())` — the declarative constructor raises `TypeError` on any
keyword that is not an attribute of `Bet`, outside the surrounding
`try`/`except`; only then would the row be inserted and committed. -/
def create_bet (bet : BetCreate) (s : Store) : Resp BetRow × Store :=
  match findEvent s.events bet.event_request_id with
  | none => (.err 404 "Event not found", s)
  | some _ =>
    match betDictKeys.find? (fun k => !betModelAttrs.contains k) with
    | some k => (.exn (k ++ " is an invalid keyword argument for Bet"), s)
    | none =>
      let db_bet : BetRow :=
        { id := s.nextBetId
          event_request_id := bet.event_request_id
          wallet_address := bet.wallet_address
          prediction := bet.prediction
          tokens := bet.tokens }
      (.ok db_bet,
        { s with bets := s.bets ++ [db_bet], nextBetId := s.nextBetId + 1 })

/-- Raw `POST /bets` body before request validation: `prediction` is an
arbitrary string and `tokens` an arbitrary number. -/
structure RawBetRequest where
  event_request_id : String
  wallet_address : String
  prediction : String
  tokens : ℚ
  token_name : String
deriving DecidableEq, Repr

/-- Pydantic validation of the `BetCreate` contract: `prediction` must be
the literal `YES` or `NO`, and `tokens` carries `Field(gt=0)`. -/
def validateBetCreate (r : RawBetRequest) : Except String BetCreate :=
  match r.prediction with
  | "YES" =>
    if 0 < r.tokens then
      .ok { event_request_id := r.event_request_id
            wallet_address := r.wallet_address
            prediction := .YES
            tokens := r.tokens
            token_name := r.token_name }
    else .error "tokens: Input should be greater than 0"
  | "NO" =>
    if 0 < r.tokens then
      .ok { event_request_id := r.event_request_id
            wallet_address := r.wallet_address
            prediction := .NO
            tokens := r.tokens
            token_name := r.token_name }
    else .error "tokens: Input should be greater than 0"
  | _ => .error "prediction: Input should be YES or NO"

/-- The full `POST /bets` request cycle: FastAPI validates the body against
`BetCreate` (a failure is a 422 response produced before the handler runs)
and only then calls `create_bet`. -/
def post_bets (r : RawBetRequest) (s : Store) : Resp BetRow × Store :=
  match validateBetCreate r with
  | .error msg => (.err 422 msg, s)
  | .ok bet => create_bet bet s

/-- Handler `get_bets_for_event` (`GET /events/{request_id}/bets`). -/
def get_bets_for_event (request_id : String) (s : Store) :
    Resp (List BetRow) × Store :=
  match findEvent s.events request_id with
  | none => (.err 404 "Event not found", s)
  | some _ =>
    (.ok (s.bets.filter (fun b => b.event_request_id == request_id)), s)

/-- One row of the `GET /top-betters` response: a wallet address and the
summed stake of its bets. -/
structure TopBetter where
  wallet_address : String
  total_tokens : ℚ
deriving DecidableEq, Repr

/-- `func.sum(Bet.tokens)` grouped on one wallet address: the sum of
`tokens` over the bets of that wallet. -/
def walletTotal (bets : List BetRow) (w : String) : ℚ :=
  ((bets.filter (fun b => b.wallet_address == w)).map (fun b => b.tokens)).sum

/-- The distinct wallet addresses produced by `group_by(Bet.wallet_address)`
(one group per distinct address; the pre-sort group order is
implementation-defined, so any duplicate-free enumeration is faithful). -/
def walletGroups (bets : List BetRow) : List String :=
  (bets.map (fun b => b.wallet_address)).dedup

/-- `order_by(func.sum(Bet.tokens).desc())` on the grouped rows: descending
total stake. -/
def topDesc (a b : TopBetter) : Prop := b.total_tokens ≤ a.total_tokens

instance : DecidableRel topDesc := fun a b =>
  inferInstanceAs (Decidable (b.total_tokens ≤ a.total_tokens))

instance : IsTotal TopBetter topDesc :=
  ⟨fun a b => le_total b.total_tokens a.total_tokens⟩

instance : IsTrans TopBetter topDesc :=
  ⟨fun _ _ _ hab hbc => le_trans hbc hab⟩

/-- Handler `get_top_betters` (`GET /top-betters`): groups bets by wallet
address, sums `tokens` per group, orders descending by the sum and truncates
to `limit` rows. -/
def get_top_betters (limit : Nat) (s : Store) : List TopBetter :=
  let grouped := (walletGroups s.bets).map
    (fun w => { wallet_address := w, total_tokens := walletTotal s.bets w })
  queryLimit limit (grouped.insertionSort topDesc)

/-- Default of the `limit` query parameter of `get_top_betters`. -/
def getTopBettersDefaultLimit : Nat := 10

/-- The `GET /largest-bet` response body: the four bet fields the handler
copies out (the row id is not echoed). -/
structure LargestBet where
  event_request_id : String
  wallet_address : String
  prediction : Prediction
  tokens : ℚ
deriving DecidableEq, Repr

/-- `order_by(Bet.tokens.desc())` on bet rows. -/
def betDesc (a b : BetRow) : Prop := b.tokens ≤ a.tokens

instance : DecidableRel betDesc := fun a b =>
  inferInstanceAs (Decidable (b.tokens ≤ a.tokens))

instance : IsTotal BetRow betDesc :=
  ⟨fun a b => le_total b.tokens a.tokens⟩

instance : IsTrans BetRow betDesc :=
  ⟨fun _ _ _ hab hbc => le_trans hbc hab⟩

/-- Handler `get_largest_bet` (`GET /largest-bet`):
`db.query(Bet).order_by(Bet.tokens.desc()).first()`; 404 when no bets
exist, otherwise the four copied fields of a maximal-stake row. -/
def get_largest_bet (s : Store) : Resp LargestBet × Store :=
  match (s.bets.insertionSort betDesc).head? with
  | none => (.err 404 "No bets found", s)
  | some b =>
    (.ok { event_request_id := b.event_request_id
           wallet_address := b.wallet_address
           prediction := b.prediction
           tokens := b.tokens }, s)

/-- The `GET /events/{request_id}` statistics response body. -/
structure EventStats where
  request_id : String
  title : String
  total_bets : Nat
  total_tokens : ℚ
  yes_bets : Nat
  no_bets : Nat
deriving DecidableEq, Repr

/-- Handler `get_event_statistics` (second `GET /events/{request_id}`
route): 404 when the event is absent; otherwise one aggregate pass over the
bets filtered by `event_request_id` computing `count()`,
`sum(Bet.tokens)`, and the two `sum(case(...))` counts — SQL `NULL` sums on
an empty group become `0` through the `or 0` coalescing in the handler. -/
def get_event_statistics (request_id : String) (s : Store) :
    Resp EventStats × Store :=
  match findEvent s.events request_id with
  | none => (.err 404 "Event not found", s)
  | some event =>
    let filtered := s.bets.filter (fun b => b.event_request_id == request_id)
    (.ok { request_id := request_id
           title := event.title
           total_bets := filtered.length
           total_tokens := (filtered.map (fun b => b.tokens)).sum
           yes_bets := (filtered.filter (fun b => b.prediction == .YES)).length
           no_bets := (filtered.filter (fun b => b.prediction == .NO)).length },
      s)

/-- HTTP methods used by the application. -/
inductive Method where
  | get : Method
  | post : Method
  | put : Method
deriving DecidableEq, Repr

/-- One segment of a route path pattern: a literal, or a `{param}`
placeholder (whose default converter matches one non-empty path segment). -/
inductive Seg where
  | lit : String → Seg
  | param : Seg
deriving DecidableEq, Repr

/-- Identifiers of the nine registered handlers, in source terms. -/
inductive HandlerId where
  | createEvent
  | updateEventContracts
  | getAllEvents
  | getEvent
  | createBet
  | getBetsForEvent
  | getTopBetters
  | getLargestBet
  | getEventStatistics
deriving DecidableEq, Repr

/-- A registered route: method, path pattern and handler. -/
structure Route where
  method : Method
  pattern : List Seg
  handler : HandlerId
deriving DecidableEq, Repr

/-- The application route table, in the registration order of the
decorators of `src/main.py`. -/
def routes : List Route :=
  [ ⟨.post, [.lit "events"], .createEvent⟩,
    ⟨.put, [.lit "events", .param], .updateEventContracts⟩,
    ⟨.get, [.lit "events"], .getAllEvents⟩,
    ⟨.get, [.lit "events", .param], .getEvent⟩,
    ⟨.post, [.lit "bets"], .createBet⟩,
    ⟨.get, [.lit "events", .param, .lit "bets"], .getBetsForEvent⟩,
    ⟨.get, [.lit "top-betters"], .getTopBetters⟩,
    ⟨.get, [.lit "largest-bet"], .getLargestBet⟩,
    ⟨.get, [.lit "events", .param], .getEventStatistics⟩ ]

/-- Whether one pattern segment matches one path segment. -/
def segMatches : Seg → String → Bool
  | .lit s, t => s == t
  | .param, t => t != ""

/-- Whether a route pattern matches a full request path (same length,
segmentwise match). -/
def patternMatches : List Seg → List String → Bool
  | [], [] => true
  | p :: ps, t :: ts => segMatches p t && patternMatches ps ts
  | _, _ => false

/-- Request dispatch: the framework tries routes in registration order and
invokes the first whose method and pattern match. -/
def dispatch (m : Method) (path : List String) : Option HandlerId :=
  (routes.find? (fun r => r.method == m && patternMatches r.pattern path)).map
    (fun r => r.handler)

/-! ### Example data (the scenario of the specification) -/

/-- The example event of the specification scenario. -/
def evt1 : EventRow :=
  { request_id := "evt1", title := "Will it rain?", description := "demo",
    due_date := 1700000000, predict := none, contracts := none }

/-- A store holding only the example event. -/
def sampleStore : Store := { events := [evt1], bets := [], nextBetId := 1 }

/-- The first example bet: wallet `0xabc`, YES, 5 tokens. -/
def betYes : BetRow :=
  { id := 1, event_request_id := "evt1", wallet_address := "0xabc",
    prediction := .YES, tokens := 5 }

/-- The second example bet: wallet `0xdef`, NO, 3 tokens. -/
def betNo : BetRow :=
  { id := 2, event_request_id := "evt1", wallet_address := "0xdef",
    prediction := .NO, tokens := 3 }

/-- The example store after both example bets. -/
def storeWithBets : Store :=
  { events := [evt1], bets := [betYes, betNo], nextBetId := 3 }

/-! ### Helper lemmas -/

/-- `find?`/`replaceFirst` decomposition: when the lookup succeeds, the
event list splits around the found row and `replaceFirst` substitutes
exactly that occurrence. -/
theorem replaceFirst_of_findEvent (events : List EventRow) (rid : String)
    (u ev : EventRow) (h : findEvent events rid = some ev) :
    ∃ l1 l2, events = l1 ++ ev :: l2 ∧
      replaceFirst events rid u = l1 ++ u :: l2 := by
  induction events with
  | nil => simp [findEvent] at h
  | cons e rest ih =>
    by_cases he : e.request_id = rid
    · obtain rfl : e = ev := by simpa [findEvent, he] using h
      exact ⟨[], rest, rfl, by simp [replaceFirst, he]⟩
    · have h' : findEvent rest rid = some ev := by
        simpa [findEvent, he] using h
      obtain ⟨l1, l2, h1, h2⟩ := ih h'
      exact ⟨e :: l1, l2, by simp [h1], by simp [replaceFirst, he, h2]⟩

/-- Every stored bet predicts YES or NO (the column enum), so the two
`case`-sums partition the filtered row count. -/
theorem length_filter_yes_add_no (l : List BetRow) :
    (l.filter (fun b => b.prediction == Prediction.YES)).length +
      (l.filter (fun b => b.prediction == Prediction.NO)).length = l.length := by
  induction l with
  | nil => rfl
  | cons b rest ih =>
    cases hb : b.prediction <;> simp [List.filter_cons, hb] <;> omega

/-- The sum over the filtered bets equals the sum over all bets of the
stake guarded by the event reference. -/
theorem sum_filter_tokens_eq_sum_ite (l : List BetRow) (rid : String) :
    ((l.filter (fun b => b.event_request_id == rid)).map
        (fun b => b.tokens)).sum =
      (l.map (fun b => if b.event_request_id = rid then b.tokens else 0)).sum := by
  induction l with
  | nil => rfl
  | cons b rest ih =>
    by_cases hb : b.event_request_id = rid <;>
      simp [List.filter_cons, hb, ih]

/-! ### Claim theorems -/

/-- C1 (code bug): a validated bet-creation request whose
`event_request_id` names an existing event does NOT persist a bet row.
`bet.dict()` carries the `token_name` key, which is not an attribute of the
`Bet` model, so `Bet(**bet.dict())` raises `TypeError` outside the
`try`/`except` — the request fails as an uncaught exception before any
insert, with the store unchanged, instead of returning the persisted bet
with its assigned id. -/
theorem c1_create_bet_valid_request_fails :
    create_bet { event_request_id := "evt1", wallet_address := "0xabc",
                 prediction := .YES, tokens := 5, token_name := "USDC" }
        sampleStore =
      (.exn "token_name is an invalid keyword argument for Bet",
        sampleStore) := by
  decide

/-- C4: creating an event whose `request_id` is already the key of a stored
event yields the 400 conflict response and leaves the store — hence every
field of the previously stored event — unchanged. -/
theorem c4_create_event_duplicate_conflict (event : EventCreate) (s : Store)
    (h : ∃ ev ∈ s.events, ev.request_id = event.request_id) :
    create_event event s =
      (.err 400 "An event with this request ID already exists", s) := by
  obtain ⟨ev, hmem, heq⟩ := h
  have hany : s.events.any (fun e => e.request_id == event.request_id) = true :=
    List.any_eq_true.2 ⟨ev, hmem, by simp [heq]⟩
  simp [create_event, hany]

/-- Witness for C4 at the example store. -/
theorem c4_create_event_duplicate_conflict_witness :
    create_event { request_id := "evt1", title := "again",
                   description := "dup", due_date := 0, predict := none }
        sampleStore =
      (.err 400 "An event with this request ID already exists",
        sampleStore) :=
  c4_create_event_duplicate_conflict _ _ ⟨evt1, by decide, by decide⟩

/-- C7: a raw `POST /bets` body with `tokens ≤ 0` fails request validation
(a 422 produced before the handler runs), so the store — in particular the
bet table — is unchanged. -/
theorem c7_post_bets_nonpositive_tokens_rejected (r : RawBetRequest)
    (s : Store) (h : r.tokens ≤ 0) :
    ∃ msg, post_bets r s = (.err 422 msg, s) := by
  have hnot : ¬ 0 < r.tokens := not_lt.2 h
  have hv : ∃ msg, validateBetCreate r = .error msg := by
    unfold validateBetCreate
    split
    · rw [if_neg hnot]; exact ⟨_, rfl⟩
    · rw [if_neg hnot]; exact ⟨_, rfl⟩
    · exact ⟨_, rfl⟩
  obtain ⟨msg, hmsg⟩ := hv
  exact ⟨msg, by simp [post_bets, hmsg]⟩

/-- Witness for C7 with a −1-token request. -/
theorem c7_post_bets_nonpositive_tokens_rejected_witness :
    ∃ msg,
      post_bets { event_request_id := "evt1", wallet_address := "0xabc",
                  prediction := "YES", tokens := -1, token_name := "USDC" }
          sampleStore =
        (.err 422 msg, sampleStore) :=
  c7_post_bets_nonpositive_tokens_rejected _ _ (by decide)

/-- C8: a bet-creation request whose `event_request_id` matches no stored
event fails with the 404 raised before the insert, and the store is
unchanged. -/
theorem c8_create_bet_missing_event (bet : BetCreate) (s : Store)
    (h : ∀ ev ∈ s.events, ev.request_id ≠ bet.event_request_id) :
    create_bet bet s = (.err 404 "Event not found", s) := by
  have hf : findEvent s.events bet.event_request_id = none := by
    simp only [findEvent, List.find?_eq_none]
    intro ev hmem
    simp [h ev hmem]
  simp [create_bet, hf]

/-- Witness for C8 with an unknown event key. -/
theorem c8_create_bet_missing_event_witness :
    create_bet { event_request_id := "missing", wallet_address := "0xabc",
                 prediction := .YES, tokens := 5, token_name := "USDC" }
        sampleStore =
      (.err 404 "Event not found", sampleStore) :=
  c8_create_bet_missing_event _ _ (by decide)

/-- C10: listing events returns at most `limit` rows, namely the `limit`-
prefix of the stored events after dropping the first `skip` of them, and
the query parameter defaults are `skip = 0` and `limit = 100`. -/
theorem c10_get_all_events_pagination (skip limit : Nat) (s : Store) :
    (get_all_events skip limit s).length ≤ limit ∧
    get_all_events skip limit s = (s.events.drop skip).take limit ∧
    getAllEventsDefaultSkip = 0 ∧ getAllEventsDefaultLimit = 100 := by
  refine ⟨?_, rfl, rfl, rfl⟩
  exact List.length_take_le limit (s.events.drop skip)

/-- C3: `GET /events/{request_id}` is dispatched, in registration order, to
the first-registered handler `get_event` — never to `get_event_statistics`,
registered later under the identical path — and `get_event` returns the
plain event row, or 404 when the key is absent. -/
theorem c3_get_event_route_shadows_stats (rid : String) (h : rid ≠ "") :
    dispatch .get ["events", rid] = some .getEvent ∧
    dispatch .get ["events", rid] ≠ some .getEventStatistics ∧
    ∀ s : Store,
      (findEvent s.events rid = none →
        get_event rid s = (.err 404 "Event not found", s)) ∧
      ∀ ev, findEvent s.events rid = some ev →
        get_event rid s = (.ok ev, s) := by
  have hb : (rid != "") = true := bne_iff_ne.mpr h
  have hd : dispatch .get ["events", rid] = some .getEvent := by
    simp [dispatch, routes, patternMatches, segMatches, hb,
      List.find?_cons_of_neg, List.find?_cons_of_pos]
  refine ⟨hd, by simp [hd], fun s => ⟨fun hn => by simp [get_event, hn],
    fun ev he => by simp [get_event, he]⟩⟩

/-- Witness for C3 at the example key and store. -/
theorem c3_get_event_route_shadows_stats_witness :
    dispatch .get ["events", "evt1"] = some .getEvent ∧
    get_event "evt1" sampleStore = (.ok evt1, sampleStore) :=
  ⟨(c3_get_event_route_shadows_stats "evt1" (by decide)).1,
    ((c3_get_event_route_shadows_stats "evt1" (by decide)).2.2
      sampleStore).2 evt1 (by decide)⟩

/-- C9: updating contracts of an absent event key fails with 404 and leaves
the store unchanged; on a present key the `contracts` field of that event
is replaced wholesale by the supplied mapping, every other field of the row
and every other event (and the bets) are unchanged, and the updated row is
returned. -/
theorem c9_update_event_contracts_frame (request_id : String)
    (c : ContractsUpdate) (s : Store) :
    (findEvent s.events request_id = none →
      update_event_contracts request_id c s =
        (.err 404 "Event not found", s)) ∧
    ∀ ev, findEvent s.events request_id = some ev →
      (update_event_contracts request_id c s).1 =
        .ok { ev with contracts := some c.contracts } ∧
      (update_event_contracts request_id c s).2.bets = s.bets ∧
      (update_event_contracts request_id c s).2.nextBetId = s.nextBetId ∧
      ∃ l1 l2, s.events = l1 ++ ev :: l2 ∧
        (update_event_contracts request_id c s).2.events =
          l1 ++ ({ ev with contracts := some c.contracts } : EventRow) :: l2 := by
  refine ⟨fun hn => by simp [update_event_contracts, hn], fun ev he => ?_⟩
  obtain ⟨l1, l2, h1, h2⟩ :=
    replaceFirst_of_findEvent s.events request_id
      { ev with contracts := some c.contracts } ev he
  refine ⟨by simp [update_event_contracts, he], by simp [update_event_contracts, he],
    by simp [update_event_contracts, he], l1, l2, h1, ?_⟩
  simp [update_event_contracts, he, h2]

/-- Witness for C9: replacing the contracts of the example event. -/
theorem c9_update_event_contracts_frame_witness :
    (update_event_contracts "evt1" { contracts := [("base", "0x1")] }
        sampleStore).1 =
      .ok { evt1 with contracts := some [("base", "0x1")] } ∧
    ∃ l1 l2, sampleStore.events = l1 ++ evt1 :: l2 ∧
      (update_event_contracts "evt1" { contracts := [("base", "0x1")] }
          sampleStore).2.events =
        l1 ++ ({ evt1 with contracts := some [("base", "0x1")] } : EventRow)
          :: l2 := by
  have h := (c9_update_event_contracts_frame "evt1"
    { contracts := [("base", "0x1")] } sampleStore).2 evt1 (by decide)
  exact ⟨h.1, h.2.2.2⟩

/-- C2: for an absent event key the statistics operation fails with 404 and
leaves the store unchanged; for a stored event it returns counts with
`yes_bets + no_bets = total_bets` and `total_tokens` equal to the sum of
the stakes of exactly the bets referencing that event (0 when there are
none, by the empty sum). -/
theorem c2_event_statistics_consistent (request_id : String) (s : Store) :
    (findEvent s.events request_id = none →
      get_event_statistics request_id s = (.err 404 "Event not found", s)) ∧
    ∀ ev, findEvent s.events request_id = some ev →
      ∃ st, get_event_statistics request_id s = (.ok st, s) ∧
        st.yes_bets + st.no_bets = st.total_bets ∧
        st.total_tokens =
          (s.bets.map
            (fun b => if b.event_request_id = request_id then b.tokens
              else 0)).sum := by
  refine ⟨fun hn => by simp [get_event_statistics, hn], fun ev he => ?_⟩
  unfold get_event_statistics
  rw [he]
  exact ⟨_, rfl, length_filter_yes_add_no _,
    sum_filter_tokens_eq_sum_ite _ _⟩

/-- Witness for C2: the two-bet example scenario of the specification
(total 2 bets, 8 tokens, one YES, one NO). -/
theorem c2_event_statistics_consistent_witness :
    ∃ st, get_event_statistics "evt1" storeWithBets = (.ok st, storeWithBets) ∧
      st.yes_bets + st.no_bets = st.total_bets ∧
      st.total_tokens =
        (storeWithBets.bets.map
          (fun b => if b.event_request_id = "evt1" then b.tokens
            else 0)).sum :=
  (c2_event_statistics_consistent "evt1" storeWithBets).2 evt1 (by decide)

/-- C5: with no stored bets the largest-bet operation fails with 404; with
at least one stored bet it returns the fields of a stored bet whose
`tokens` value is maximal over all stored bets. -/
theorem c5_largest_bet_is_max (s : Store) :
    (s.bets = [] → get_largest_bet s = (.err 404 "No bets found", s)) ∧
    (s.bets ≠ [] → ∃ r, get_largest_bet s = (.ok r, s) ∧
      (∃ b ∈ s.bets, b.event_request_id = r.event_request_id ∧
        b.wallet_address = r.wallet_address ∧ b.prediction = r.prediction ∧
        b.tokens = r.tokens) ∧
      ∀ b ∈ s.bets, b.tokens ≤ r.tokens) := by
  constructor
  · intro h
    simp [get_largest_bet, h]
  · intro h
    have hperm := List.perm_insertionSort betDesc s.bets
    have hsorted := List.sorted_insertionSort betDesc s.bets
    rcases hs : s.bets.insertionSort betDesc with _ | ⟨b, rest⟩
    · rw [hs] at hperm
      exact absurd hperm.symm.eq_nil h
    · rw [hs] at hperm hsorted
      refine ⟨{ event_request_id := b.event_request_id,
                wallet_address := b.wallet_address,
                prediction := b.prediction, tokens := b.tokens },
        by simp [get_largest_bet, hs],
        ⟨b, hperm.mem_iff.1 (List.mem_cons_self b rest), rfl, rfl, rfl, rfl⟩,
        ?_⟩
      intro x hx
      rcases List.mem_cons.1 (hperm.mem_iff.2 hx) with rfl | hx'
      · exact le_refl _
      · exact List.rel_of_sorted_cons hsorted x hx'

/-- Witness for C5: the 5-token YES bet is the maximum of the example
store. -/
theorem c5_largest_bet_is_max_witness :
    ∃ r, get_largest_bet storeWithBets = (.ok r, storeWithBets) ∧
      (∃ b ∈ storeWithBets.bets,
        b.event_request_id = r.event_request_id ∧
        b.wallet_address = r.wallet_address ∧ b.prediction = r.prediction ∧
        b.tokens = r.tokens) ∧
      ∀ b ∈ storeWithBets.bets, b.tokens ≤ r.tokens :=
  (c5_largest_bet_is_max storeWithBets).2 (by decide)

/-- C6: the top-betters listing has at most `limit` rows (default 10), at
most one row per wallet address, each row's `total_tokens` equal to the sum
of `tokens` over all of that wallet's bets, and rows ordered by descending
`total_tokens`. -/
theorem c6_top_betters_grouped_sorted (limit : Nat) (s : Store) :
    (get_top_betters limit s).length ≤ limit ∧
    ((get_top_betters limit s).map (fun t => t.wallet_address)).Nodup ∧
    (∀ t ∈ get_top_betters limit s,
      t.total_tokens = walletTotal s.bets t.wallet_address) ∧
    (get_top_betters limit s).Pairwise
      (fun a b => b.total_tokens ≤ a.total_tokens) ∧
    getTopBettersDefaultLimit = 10 := by
  set grouped : List TopBetter := (walletGroups s.bets).map
    (fun w => { wallet_address := w, total_tokens := walletTotal s.bets w })
    with hg
  have hperm : List.Perm (grouped.insertionSort topDesc) grouped :=
    List.perm_insertionSort _ _
  have hout : get_top_betters limit s =
      (grouped.insertionSort topDesc).take limit := rfl
  refine ⟨?_, ?_, ?_, ?_, rfl⟩
  · rw [hout]
    exact List.length_take_le _ _
  · have h1 : grouped.map (fun t => t.wallet_address) = walletGroups s.bets := by
      simp [hg, List.map_map, Function.comp_def]
    have h2 : ((grouped.insertionSort topDesc).map
        (fun t => t.wallet_address)).Nodup := by
      rw [(hperm.map _).nodup_iff, h1]
      exact List.nodup_dedup _
    rw [hout]
    exact h2.sublist ((List.take_sublist _ _).map _)
  · intro t ht
    rw [hout] at ht
    have ht2 : t ∈ grouped := hperm.mem_iff.1 (List.mem_of_mem_take ht)
    obtain ⟨w, _, rfl⟩ := List.mem_map.1 ht2
    rfl
  · rw [hout]
    exact List.Pairwise.sublist (List.take_sublist _ _)
      (List.sorted_insertionSort topDesc grouped)

/-- Witness for C6: on the example store the listing respects the default
limit, has duplicate-free wallets and is sorted descending. -/
theorem c6_top_betters_grouped_sorted_witness :
    (get_top_betters 10 storeWithBets).length ≤ 10 ∧
    ((get_top_betters 10 storeWithBets).map
      (fun t => t.wallet_address)).Nodup ∧
    (get_top_betters 10 storeWithBets).Pairwise
      (fun a b => b.total_tokens ≤ a.total_tokens) :=
  ⟨(c6_top_betters_grouped_sorted 10 storeWithBets).1,
    (c6_top_betters_grouped_sorted 10 storeWithBets).2.1,
    (c6_top_betters_grouped_sorted 10 storeWithBets).2.2.2.1⟩
